import Mathlib

/-!
Shallow embedding of the Component Migration Helper plugin core
(src/code.ts): node key and label resolution, key formatting, the
copy-selected-key reply, the visual comparison generator, and the
persistence bridge. Host capabilities (font loading, component import,
client storage, the ambient file key) are modelled as explicit
parameters. JS string truthiness is modelled by comparison with the
empty string.
-/

/-- Character membership in a string, modelling the JS includes test on a
single-character needle; defined over the character list so that it reduces
on concrete inputs. -/
def stringContains (s : String) (c : Char) : Bool := s.data.any (fun a => a == c)

/-- Codepoint prefix of a string, modelling the JS substring(0, n) call;
defined over the character list so that it reduces on concrete inputs. -/
def stringTake (s : String) (n : Nat) : String := String.mk (s.data.take n)

/-- Parent kind, as tested by the COMPONENT_SET comparisons in getComponentName. -/
inductive ParentType where
  | componentSet
  | otherType
deriving DecidableEq

/-- A reference to a parent node: its type tag and its name. -/
structure ParentRef where
  type : ParentType
  name : String
deriving DecidableEq

/-- The main component referenced by an instance node: id, key, name and parent. -/
structure MainComponentRef where
  id : String
  key : String
  name : String
  parent : Option ParentRef
deriving DecidableEq

/-- A selectable scene node, restricted to the fields the plugin reads:
a COMPONENT with key, name, parent and variantProperties; an INSTANCE with
its own id, an optional main component, a name and variantProperties; or
any other node kind, of which only the name is read. -/
inductive SceneNode where
  | component (key : String) (name : String) (parent : Option ParentRef)
      (variantProperties : Option (List (String × String)))
  | instanceOf (id : String) (mainComponent : Option MainComponentRef) (name : String)
      (variantProperties : Option (List (String × String)))
  | otherNode (name : String)
deriving DecidableEq

/-- Embeds getComponentKey. A COMPONENT returns its own key; an INSTANCE
first truthiness-tests the main component id, then returns the main
component key with the JS key-or-null fallback; every other kind returns
none. -/
def getComponentKey : SceneNode → Option String
  | SceneNode.component key _ _ _ => some key
  | SceneNode.instanceOf _ mc _ _ =>
      match mc with
      | some m => if m.id = "" then none else if m.key = "" then none else some m.key
      | none => none
  | SceneNode.otherNode _ => none

/-- The starting display name used by getComponentName: the node name, or,
for an instance with a main component, the main component name. -/
def nodeRawName : SceneNode → String
  | SceneNode.component _ name _ _ => name
  | SceneNode.instanceOf _ (some m) _ _ => m.name
  | SceneNode.instanceOf _ none name _ => name
  | SceneNode.otherNode name => name

/-- The parent consulted by the variant-set substitution in getComponentName:
the own parent of a component, the main-component parent of an instance. -/
def relevantParent : SceneNode → Option ParentRef
  | SceneNode.component _ _ p _ => p
  | SceneNode.instanceOf _ (some m) _ _ => m.parent
  | _ => none

/-- The base-name stage of getComponentName: when the raw name contains an
equals sign and the relevant parent is a COMPONENT_SET, the parent name
replaces the raw name. -/
def baseNameOf (n : SceneNode) : String :=
  let name := nodeRawName n
  if stringContains name '=' then
    match relevantParent n with
    | some p => if p.type = ParentType.componentSet then p.name else name
    | none => name
  else name

/-- The variantProperties field of a node, for the kinds that carry one. -/
def variantPropsOf : SceneNode → Option (List (String × String))
  | SceneNode.component _ _ _ vps => vps
  | SceneNode.instanceOf _ _ _ vps => vps
  | SceneNode.otherNode _ => none

/-- Embeds the serialization of the variant properties map: each entry as
key=value, joined by a comma and a space, in iteration order. -/
def joinProps : List (String × String) → String
  | [] => ""
  | [(k, v)] => k ++ "=" ++ v
  | (k, v) :: rest => k ++ "=" ++ v ++ ", " ++ joinProps rest

/-- The suffix stage of getComponentName: a pipe plus the joined properties
when the map is present and serializes to a non-empty string, nothing
otherwise. -/
def variantSuffix (vps : Option (List (String × String))) : String :=
  match vps with
  | some l =>
      let props := joinProps l
      if props = "" then "" else "|" ++ props
  | none => ""

/-- Embeds getComponentName: for COMPONENT and INSTANCE nodes, the base name
followed by the variant-properties suffix; for any other node, the raw node
name. -/
def getComponentName (n : SceneNode) : String :=
  match n with
  | SceneNode.otherNode name => name
  | _ => baseNameOf n ++ variantSuffix (variantPropsOf n)

/-- True exactly for COMPONENT and INSTANCE nodes. -/
def isComponentOrInstance : SceneNode → Bool
  | SceneNode.otherNode _ => false
  | _ => true

/-- Embeds formatComponentKey: a key that already contains a colon passes
through; otherwise a truthy ambient figma.fileKey is prefixed with a colon
separator; with no truthy file key the key passes through unchanged. -/
def formatComponentKey (fileKey : Option String) (key : String) : String :=
  if stringContains key ':' then key
  else
    match fileKey with
    | some fk => if fk = "" then key else fk ++ ":" ++ key
    | none => key

/-- The keyCopied reply posted by copySelectedComponentKey. -/
structure KeyCopiedMsg where
  success : Bool
  key : Option String
  error : Option String
deriving DecidableEq

/-- Embeds copySelectedComponentKey over the current selection list: an empty
selection reports no component selected; otherwise only the first node is
consulted, with the JS falsiness test on the resolved key. -/
def copySelectedComponentKey : List SceneNode → KeyCopiedMsg
  | [] => { success := false, key := none, error := some "No component selected" }
  | n :: _ =>
      match getComponentKey n with
      | some k =>
          if k = "" then
            { success := false, key := none, error := some "Selected node is not a component" }
          else
            { success := true, key := some k, error := none }
      | none => { success := false, key := none, error := some "Selected node is not a component" }

/-- A migration mapping record, as sent by the presentation layer. -/
structure Mapping where
  oldKey : String
  newKey : String
  oldName : String
  newName : String
  notes : String
deriving DecidableEq

/-- A value held in client storage under the mappings key: either the legacy
bare array shape or the wrapped shape with a timestamp. -/
inductive SavedValue where
  | legacyArray (mappings : List Mapping)
  | wrapped (mappings : List Mapping) (timestamp : Int)
deriving DecidableEq

/-- Embeds loadSavedMappings: the storage read either throws, resolves to no
value, or resolves to a value; a bare legacy array is wrapped with a
timestamp of seven days before now, any other resolved value is passed
through unchanged, and a throw is converted into the explicit no-data
reply. -/
def loadSavedMappings (now : Int) (stored : Except Unit (Option SavedValue)) : Option SavedValue :=
  match stored with
  | Except.error _ => none
  | Except.ok saved =>
      match saved with
      | some (SavedValue.legacyArray ms) =>
          some (SavedValue.wrapped ms (now - 7 * 24 * 60 * 60 * 1000))
      | _ => saved

/-- Result of one importComponentByKeyAsync call: a throw, a nullish
resolution, or a component carrying a name. -/
inductive ImportOutcome where
  | throws
  | nullish
  | found (name : String)
deriving DecidableEq

/-- A created canvas node, restricted to what the claims observe: frames
with children, text nodes with their characters, and component instances. -/
inductive VNode where
  | frameNode (name : String) (children : List VNode)
  | textNode (characters : String)
  | instanceNode (componentName : String)

/-- The host capabilities consumed by generateVisualComparison: whether the
three font preloads succeed, whether the root frame creation succeeds, the
ambient file key, the import oracle, and whether the per-mapping block
construction throws unexpectedly for a given mapping. -/
structure Env where
  fontsOk : Bool
  rootOk : Bool
  fileKey : Option String
  importComponentByKey : String → ImportOutcome
  buildFails : Mapping → Bool

/-- JS string-or fallback, as in the name-or-key expressions. -/
def jsOr (s fallback : String) : String := if s = "" then fallback else s

/-- The inner import try block of one sub-block: an instance child on
success, nothing on a nullish resolution, and the error marker plus the
truncated-key debug line on a throw. -/
def importBlock (env : Env) (key : String) : List VNode :=
  match env.importComponentByKey (formatComponentKey env.fileKey key) with
  | ImportOutcome.found c => [VNode.instanceNode c]
  | ImportOutcome.nullish => []
  | ImportOutcome.throws =>
      [VNode.textNode "⚠️ Component not found",
       VNode.textNode ("Key: " ++ stringTake key 20 ++ "...")]

/-- The OLD sub-block: category label, name line, then the import result. -/
def buildOldSection (env : Env) (m : Mapping) : VNode :=
  VNode.frameNode "OLD"
    ([VNode.textNode "OLD", VNode.textNode (jsOr m.oldName m.oldKey)] ++ importBlock env m.oldKey)

/-- The NEW sub-block: category label, name line, then the import result. -/
def buildNewSection (env : Env) (m : Mapping) : VNode :=
  VNode.frameNode "NEW"
    ([VNode.textNode "NEW", VNode.textNode (jsOr m.newName m.newKey)] ++ importBlock env m.newKey)

/-- The arrow text between the two sub-blocks. -/
def arrowNode : VNode := VNode.textNode "↓"

/-- The pair frame title, with the Old and New fallbacks. -/
def pairFrameName (m : Mapping) : String :=
  jsOr m.oldName "Old" ++ " → " ++ jsOr m.newName "New"

/-- One pair block: the OLD sub-block, the arrow, and the NEW sub-block. -/
def buildPairFrame (env : Env) (m : Mapping) : VNode :=
  VNode.frameNode (pairFrameName m) [buildOldSection env m, arrowNode, buildNewSection env m]

/-- The per-mapping loop: an unexpected construction throw skips that pair
and sets the error flag; otherwise the pair is appended in input order and
iteration continues. The returned pair is the child list and the hasErrors
flag. -/
def buildPairs (env : Env) : List Mapping → List VNode × Bool
  | [] => ([], false)
  | m :: rest =>
      let pe := buildPairs env rest
      if env.buildFails m then (pe.1, true) else (buildPairFrame env m :: pe.1, pe.2)

/-- The summary success text posted when the error flag is unset. -/
def successText : String := "Visual comparison created successfully!"

/-- The summary warning text posted when the error flag is set. -/
def warningText : String :=
  "Visual comparison created with some errors. Some components may not be available."

/-- The fatal failure text posted by the outer catch. -/
def fatalText : String := "Failed to generate visual comparison"

/-- The observable outcome of a generation run: the created top-level canvas
nodes and the single posted summary message with its variant. -/
structure GenResult where
  canvas : List VNode
  message : String
  variant : String

/-- The body of generateVisualComparison inside the outer try: the font
preloads and then the root frame creation may throw; otherwise the pair
loop runs and the summary is chosen from the hasErrors flag. -/
def generateVisualBody (env : Env) (mappings : List Mapping) : Except Unit GenResult :=
  if env.fontsOk = false then Except.error ()
  else if env.rootOk = false then Except.error ()
  else
    let pe := buildPairs env mappings
    Except.ok
      { canvas := [VNode.frameNode "Component Migration Visual" pe.1],
        message := if pe.2 then warningText else successText,
        variant := if pe.2 then "warning" else "info" }

/-- Embeds generateVisualComparison: the outer catch converts any setup
throw into the single fatal message with no created output, so the function
never propagates an exception. -/
def generateVisualComparison (env : Env) (mappings : List Mapping) : GenResult :=
  match generateVisualBody env mappings with
  | Except.ok r => r
  | Except.error _ => { canvas := [], message := fatalText, variant := "error" }

/-- The children of a frame node; empty for leaves. -/
def childrenOf : VNode → List VNode
  | VNode.frameNode _ cs => cs
  | _ => []

/-! Helper lemmas shared by the claim theorems. -/

/-- A serialized non-empty variant-properties list is a non-empty string. -/
theorem joinProps_cons_ne_empty (p : String × String) (rest : List (String × String)) :
    joinProps (p :: rest) ≠ "" := by
  obtain ⟨k, v⟩ := p
  intro h
  have hlen := congrArg String.length h
  have h1 : String.length "=" = 1 := rfl
  have h2 : String.length "" = 0 := rfl
  cases rest with
  | nil =>
      simp only [joinProps, String.length_append, h1, h2] at hlen
      omega
  | cons q rs =>
      have h3 : String.length ", " = 2 := rfl
      simp only [joinProps, String.length_append, h1, h2, h3] at hlen
      omega

/-- For components and instances the label splits into the base name and the
variant-properties suffix. -/
theorem getComponentName_split (n : SceneNode) (h : isComponentOrInstance n = true) :
    getComponentName n = baseNameOf n ++ variantSuffix (variantPropsOf n) := by
  cases n with
  | component key name parent vps => rfl
  | instanceOf id mc name vps => rfl
  | otherNode name => simp [isComponentOrInstance] at h

/-- When no per-mapping construction throw occurs, the pair loop builds one
pair per mapping in input order and leaves the error flag unset. -/
theorem buildPairs_no_failures (env : Env) (ms : List Mapping)
    (hb : ∀ m ∈ ms, env.buildFails m = false) :
    buildPairs env ms = (ms.map (buildPairFrame env), false) := by
  induction ms with
  | nil => rfl
  | cons m rest ih =>
      have hm : env.buildFails m = false := hb m (List.mem_cons_self m rest)
      have hrest := ih (fun x hx => hb x (List.mem_cons_of_mem m hx))
      simp [buildPairs, hrest, hm]

/-! Claim theorems. -/

/-- Claim C2: resolveKey returns the own key for a component; for an
instance of a component it returns the referenced main-component key, not
the instance id, under the host invariant that node ids and component keys
are non-empty strings (the JS key-or-null fallback maps an empty id or key
to null); for a main-component-less instance and for every other node kind
it returns none rather than raising an error. -/
theorem C2_resolveKey :
    (∀ (key name : String) (parent : Option ParentRef)
        (vps : Option (List (String × String))),
        getComponentKey (SceneNode.component key name parent vps) = some key) ∧
    (∀ (id name : String) (m : MainComponentRef) (vps : Option (List (String × String))),
        m.id ≠ "" → m.key ≠ "" →
        getComponentKey (SceneNode.instanceOf id (some m) name vps) = some m.key) ∧
    (∀ (id name : String) (vps : Option (List (String × String))),
        getComponentKey (SceneNode.instanceOf id none name vps) = none) ∧
    (∀ name : String, getComponentKey (SceneNode.otherNode name) = none) := by
  refine ⟨fun _ _ _ _ => rfl, ?_, fun _ _ _ => rfl, fun _ => rfl⟩
  intro id name m vps hid hkey
  simp [getComponentKey, hid, hkey]

/-- The concrete main component used by the C2 witness. -/
def mainRefC2 : MainComponentRef :=
  { id := "7:2", key := "mainkey123", name := "Card", parent := none }

/-- Witness for C2 at a concrete instance node. -/
theorem C2_resolveKey_witness :
    mainRefC2.id ≠ "" ∧ mainRefC2.key ≠ "" ∧
    getComponentKey (SceneNode.instanceOf "5:1" (some mainRefC2) "card" none) =
      some "mainkey123" := by
  refine ⟨by decide, by decide, ?_⟩
  exact C2_resolveKey.2.1 "5:1" "card" mainRefC2 none (by decide) (by decide)

/-- Claim C3: for components and instances the base portion of the label is
the raw display name (for an instance with a main component, that
referenced component name) whenever that name has no equals sign, and the
parent variant-set name whenever the name has an equals sign and the
relevant parent is a COMPONENT_SET. -/
theorem C3_base_name (n : SceneNode) (h : isComponentOrInstance n = true) :
    getComponentName n = baseNameOf n ++ variantSuffix (variantPropsOf n) ∧
    (stringContains (nodeRawName n) '=' = false → baseNameOf n = nodeRawName n) ∧
    (∀ p : ParentRef, stringContains (nodeRawName n) '=' = true →
        relevantParent n = some p → p.type = ParentType.componentSet →
        baseNameOf n = p.name) := by
  refine ⟨getComponentName_split n h, ?_, ?_⟩
  · intro hc
    simp [baseNameOf, hc]
  · intro p hc hp ht
    simp [baseNameOf, hc, hp, ht]

/-- The concrete variant component used by the C3 witness. -/
def nodeC3 : SceneNode :=
  SceneNode.component "k3" "Size=Large"
    (some { type := ParentType.componentSet, name := "Button" }) none

/-- Witness for C3 at a concrete variant component inside a component set. -/
theorem C3_base_name_witness :
    isComponentOrInstance nodeC3 = true ∧ baseNameOf nodeC3 = "Button" := by
  refine ⟨by decide, ?_⟩
  exact (C3_base_name nodeC3 (by decide)).2.2
    { type := ParentType.componentSet, name := "Button" } (by decide) rfl rfl

/-- Claim C4: for components and instances the label is the base name plus a
suffix computed from the variant-properties map alone: a pipe followed by
the comma-joined key=value list in iteration order when the map is
non-empty, and nothing when the map is empty or absent, independent of the
base-name substitution. -/
theorem C4_variant_suffix (n : SceneNode) (h : isComponentOrInstance n = true) :
    getComponentName n = baseNameOf n ++ variantSuffix (variantPropsOf n) ∧
    (∀ l : List (String × String), variantPropsOf n = some l → l ≠ [] →
        variantSuffix (variantPropsOf n) = "|" ++ joinProps l) ∧
    ((variantPropsOf n = none ∨ variantPropsOf n = some []) →
        getComponentName n = baseNameOf n) := by
  refine ⟨getComponentName_split n h, ?_, ?_⟩
  · intro l hl hne
    rw [hl]
    cases l with
    | nil => exact absurd rfl hne
    | cons p rest => simp [variantSuffix, joinProps_cons_ne_empty p rest]
  · intro hcase
    have h1 : variantSuffix (variantPropsOf n) = "" := by
      cases hcase with
      | inl h0 => rw [h0]; rfl
      | inr h0 => rw [h0]; rfl
    rw [getComponentName_split n h, h1, String.append_empty]

/-- The concrete node with variant properties used by the C4 witness. -/
def nodeC4 : SceneNode :=
  SceneNode.component "k4" "Chip" none (some [("a", "1"), ("b", "2")])

/-- Witness for C4 at a concrete node carrying two variant properties. -/
theorem C4_variant_suffix_witness :
    isComponentOrInstance nodeC4 = true ∧
    variantSuffix (variantPropsOf nodeC4) = "|a=1, b=2" := by
  refine ⟨by decide, ?_⟩
  have h := (C4_variant_suffix nodeC4 (by decide)).2.1 [("a", "1"), ("b", "2")] rfl (by decide)
  rw [h]
  rfl

/-- Claim C5: formatKey passes a key containing a colon through unchanged,
prefixes an available (present and non-empty, per JS truthiness) ambient
file key onto a bare key with a colon separator, and passes a bare key
through unchanged when no ambient file key exists, never raising an error;
the three concrete examples of the spec are included. -/
theorem C5_formatKey :
    (∀ (fk : Option String) (key : String), stringContains key ':' = true →
        formatComponentKey fk key = key) ∧
    (∀ (ns key : String), stringContains key ':' = false → ns ≠ "" →
        formatComponentKey (some ns) key = ns ++ ":" ++ key) ∧
    (∀ key : String, formatComponentKey none key = key) ∧
    formatComponentKey (some "FK1") "abc123" = "FK1:abc123" ∧
    formatComponentKey (some "FK1") "FK1:abc123" = "FK1:abc123" ∧
    formatComponentKey none "abc123" = "abc123" := by
  refine ⟨?_, ?_, ?_, rfl, rfl, rfl⟩
  · intro fk key hc
    simp [formatComponentKey, hc]
  · intro ns key hc hns
    simp [formatComponentKey, hc, hns]
  · intro key
    cases hc : stringContains key ':' with
    | true => simp [formatComponentKey, hc]
    | false => simp [formatComponentKey, hc]

/-- Witness for C5 on a bare key with an available ambient file key. -/
theorem C5_formatKey_witness :
    stringContains "abc" ':' = false ∧ ("FK9" : String) ≠ "" ∧
    formatComponentKey (some "FK9") "abc" = "FK9:abc" := by
  refine ⟨by decide, by decide, ?_⟩
  exact C5_formatKey.2.1 "FK9" "abc" (by decide) (by decide)

/-- The host environment of the C1 scenario: fonts load, the root frame is
created, importing BAD throws, every other key resolves to a component
named GOOD, and no per-mapping construction throw occurs. -/
def envC1 : Env :=
  { fontsOk := true, rootOk := true, fileKey := none,
    importComponentByKey := fun k =>
      if k = "BAD" then ImportOutcome.throws else ImportOutcome.found "GOOD",
    buildFails := fun _ => false }

/-- The single mapping of the C1 scenario. -/
def mappingC1 : Mapping :=
  { oldKey := "BAD", newKey := "GOOD", oldName := "A", newName := "B", notes := "" }

/-- Claim C1, evaluated at its own scenario: the run does build exactly one
pair block with one error marker and one rendered instance, but the code
sets the hasErrors flag only in the outer per-mapping catch, never in
the import catch, so the posted summary is the success text, not the warning
text the claim requires. -/
theorem C1_import_failure_not_flagged :
    generateVisualComparison envC1 [mappingC1] =
      { canvas :=
          [VNode.frameNode "Component Migration Visual"
            [VNode.frameNode "A → B"
              [VNode.frameNode "OLD"
                [VNode.textNode "OLD", VNode.textNode "A",
                 VNode.textNode "⚠️ Component not found", VNode.textNode "Key: BAD..."],
               VNode.textNode "↓",
               VNode.frameNode "NEW"
                [VNode.textNode "NEW", VNode.textNode "B", VNode.instanceNode "GOOD"]]]],
        message := successText,
        variant := "info" } ∧
    successText ≠ warningText := by
  exact ⟨rfl, by decide⟩

/-- Claim C6: with fonts loaded, the root frame created, and no unexpected
construction throw, an import failure is confined to its own sub-block: the
pair block keeps its three parts, the sibling sub-block still runs its
own import, every mapping in the list yields a pair block in input order, and
the function completes normally with a single summary message. -/
theorem C6_import_failure_isolated (env : Env) (mappings : List Mapping)
    (hf : env.fontsOk = true) (hr : env.rootOk = true)
    (hb : ∀ m ∈ mappings, env.buildFails m = false) :
    generateVisualComparison env mappings =
      { canvas :=
          [VNode.frameNode "Component Migration Visual" (mappings.map (buildPairFrame env))],
        message := successText,
        variant := "info" } ∧
    (∀ m : Mapping, childrenOf (buildPairFrame env m) =
        [buildOldSection env m, arrowNode, buildNewSection env m]) ∧
    (∀ m : Mapping, childrenOf (buildOldSection env m) =
        [VNode.textNode "OLD", VNode.textNode (jsOr m.oldName m.oldKey)] ++
          importBlock env m.oldKey) ∧
    (∀ m : Mapping, childrenOf (buildNewSection env m) =
        [VNode.textNode "NEW", VNode.textNode (jsOr m.newName m.newKey)] ++
          importBlock env m.newKey) ∧
    (∀ k : String,
        env.importComponentByKey (formatComponentKey env.fileKey k) = ImportOutcome.throws →
        importBlock env k =
          [VNode.textNode "⚠️ Component not found",
           VNode.textNode ("Key: " ++ stringTake k 20 ++ "...")]) ∧
    (∀ (k c : String),
        env.importComponentByKey (formatComponentKey env.fileKey k) = ImportOutcome.found c →
        importBlock env k = [VNode.instanceNode c]) := by
  refine ⟨?_, fun m => rfl, fun m => rfl, fun m => rfl, ?_, ?_⟩
  · have hbp := buildPairs_no_failures env mappings hb
    simp [generateVisualComparison, generateVisualBody, hf, hr, hbp]
  · intro k hk
    simp [importBlock, hk]
  · intro k c hk
    simp [importBlock, hk]

/-- The all-succeeding environment used by the C6 witness. -/
def envC6 : Env :=
  { fontsOk := true, rootOk := true, fileKey := none,
    importComponentByKey := fun _ => ImportOutcome.nullish,
    buildFails := fun _ => false }

/-- Witness for C6 on the empty mapping list in a succeeding environment. -/
theorem C6_import_failure_isolated_witness :
    envC6.fontsOk = true ∧ envC6.rootOk = true ∧
    generateVisualComparison envC6 [] =
      { canvas := [VNode.frameNode "Component Migration Visual" []],
        message := successText,
        variant := "info" } := by
  refine ⟨rfl, rfl, ?_⟩
  exact (C6_import_failure_isolated envC6 [] rfl rfl (by intro m hm; cases hm)).1

/-- Claim C7: when the font preload or the root-frame creation throws, the
outer catch posts the single fatal failure message, no canvas output is
produced at all, and the body error does not escape to the caller. -/
theorem C7_fatal_setup_failure (env : Env) (mappings : List Mapping)
    (h : env.fontsOk = false ∨ env.rootOk = false) :
    generateVisualComparison env mappings =
      { canvas := [], message := fatalText, variant := "error" } ∧
    generateVisualBody env mappings = Except.error () := by
  have hbody : generateVisualBody env mappings = Except.error () := by
    cases h with
    | inl hfonts => simp [generateVisualBody, hfonts]
    | inr hroot =>
        cases hfonts : env.fontsOk with
        | false => simp [generateVisualBody, hfonts]
        | true => simp [generateVisualBody, hfonts, hroot]
  exact ⟨by simp [generateVisualComparison, hbody], hbody⟩

/-- The font-preload-failing environment used by the C7 witness. -/
def envC7 : Env :=
  { fontsOk := false, rootOk := true, fileKey := none,
    importComponentByKey := fun _ => ImportOutcome.nullish,
    buildFails := fun _ => false }

/-- Witness for C7 when the font preload throws. -/
theorem C7_fatal_setup_failure_witness :
    (envC7.fontsOk = false ∨ envC7.rootOk = false) ∧
    generateVisualComparison envC7 [] =
      { canvas := [], message := fatalText, variant := "error" } := by
  refine ⟨Or.inl rfl, ?_⟩
  exact (C7_fatal_setup_failure envC7 [] (Or.inl rfl)).1

/-- Claim C8: a legacy bare-array store value is returned wrapped with a
synthesized timestamp of exactly seven days before now, while an already
wrapped value is returned unchanged. -/
theorem C8_legacy_wrap :
    (∀ (now : Int) (ms : List Mapping),
        loadSavedMappings now (Except.ok (some (SavedValue.legacyArray ms))) =
          some (SavedValue.wrapped ms (now - 7 * 24 * 60 * 60 * 1000))) ∧
    (∀ (now : Int) (ms : List Mapping) (t : Int),
        loadSavedMappings now (Except.ok (some (SavedValue.wrapped ms t))) =
          some (SavedValue.wrapped ms t)) := by
  exact ⟨fun _ _ => rfl, fun _ _ _ => rfl⟩

/-- Claim C9: loading from an empty or absent store, and loading when the
storage read throws, both resolve to the explicit no-data reply instead of
propagating an error. -/
theorem C9_load_failure_null :
    (∀ now : Int, loadSavedMappings now (Except.ok none) = none) ∧
    (∀ (now : Int) (e : Unit), loadSavedMappings now (Except.error e) = none) := by
  exact ⟨fun _ => rfl, fun _ _ => rfl⟩

/-- Claim C10: the copy-selected-key operation consults only the first
selected node: an empty selection reports no component selected; a first
node resolving to a non-empty key yields the success reply with that key; a
first node with no resolvable key yields the not-a-component failure
regardless of later nodes; and the reply never depends on the tail of the
selection. -/
theorem C10_copy_first_only :
    copySelectedComponentKey [] =
      { success := false, key := none, error := some "No component selected" } ∧
    (∀ (n : SceneNode) (rest : List SceneNode) (k : String),
        getComponentKey n = some k → k ≠ "" →
        copySelectedComponentKey (n :: rest) =
          { success := true, key := some k, error := none }) ∧
    (∀ (n : SceneNode) (rest : List SceneNode), getComponentKey n = none →
        copySelectedComponentKey (n :: rest) =
          { success := false, key := none, error := some "Selected node is not a component" }) ∧
    (∀ (n : SceneNode) (rest rest2 : List SceneNode),
        copySelectedComponentKey (n :: rest) = copySelectedComponentKey (n :: rest2)) := by
  refine ⟨rfl, ?_, ?_, ?_⟩
  · intro n rest k hk hne
    simp [copySelectedComponentKey, hk, hne]
  · intro n rest hk
    simp [copySelectedComponentKey, hk]
  · intro n rest rest2
    rfl

/-- The concrete component used by the C10 witness. -/
def nodeC10 : SceneNode := SceneNode.component "key10" "Btn" none none

/-- Witness for C10: the first node is a component and a non-component node
follows it in the selection. -/
theorem C10_copy_first_only_witness :
    getComponentKey nodeC10 = some "key10" ∧ ("key10" : String) ≠ "" ∧
    copySelectedComponentKey [nodeC10, SceneNode.otherNode "later"] =
      { success := true, key := some "key10", error := none } := by
  refine ⟨rfl, by decide, ?_⟩
  exact C10_copy_first_only.2.1 nodeC10 [SceneNode.otherNode "later"] "key10" rfl (by decide)
